import Mathlib

/-!
Shallow embedding of the credential store, photo-list cache, gallery loader
and upload screen of the expo-cloudinary-image-manager repository.

Sources embedded:
* `src/utils/storage.ts` (credential store; `src/unnamed/part_004`, first half)
* `src/utils/photoCache.ts` (photo list cache; `src/unnamed/part_004`, second half)
* `src/app/(tabs)/photos.tsx` (`loadPhotos` / `onRefresh`; `src/unnamed/part_006`)
* `src/app/(tabs)/upload.tsx` (`handleUpload`)

Modelling conventions:
* `AsyncStorage` is a string-keyed association list.  The app persists
  JSON-encoded records; we store the decoded values directly via the
  `StoredValue` sum, one constructor per record shape the app writes.  A value
  of an unexpected shape models a string that fails to parse as the expected
  shape (JSON.parse failure / malformed data), which the source catches and
  degrades to `null`.
* `SecureStore` is a string-keyed association list of strings.
* Fallible storage primitives are driven by explicit fault-injection flags on
  the `World` (`asyncThrows`, `secureThrows`, `probeThrows`): when a flag is
  set, the corresponding native operation raises, and the embedded functions
  follow the source's `try`/`catch` structure.
* JavaScript truthiness tests on strings (`if (apiKey && apiSecret)`,
  `credentials.folder || 'Modeling'`) are embedded as non-empty-string tests.
* `await`ed asynchronous operations are run to completion in program order;
  the background cache-reconciliation fetch of `loadPhotos` is resolved at the
  end of the call, with both possible resolutions (`then` / `catch`) embedded.
-/

namespace CloudinaryManager

/-- `Photo` from `src/types/index.ts` (fields used by the cache and loader). -/
structure Photo where
  url : String
  description : String
  tags : List String
  width : Nat
  height : Nat
  public_id : String
deriving Repr, DecidableEq

/-- `CloudinaryCredentials` (display tier) from `src/utils/storage.ts`. -/
structure CloudinaryCredentials where
  cloudName : String
  uploadPreset : String
  folder : Option String
deriving Repr, DecidableEq

/-- `CloudinaryApiCredentials` (secret tier) from `src/utils/storage.ts`. -/
structure CloudinaryApiCredentials where
  apiKey : String
  apiSecret : String
deriving Repr, DecidableEq

/-- `CachedPhotos` from `src/utils/photoCache.ts`. -/
structure CachedPhotos where
  photos : List Photo
  timestamp : Nat
  folder : String
deriving Repr, DecidableEq

/-- A decoded value persisted in `AsyncStorage` (the app stores JSON-encoded
records and plain strings; a constructor of the wrong shape at a key models
data that does not parse as the shape the reader expects). -/
inductive StoredValue where
  | str (s : String)
  | creds (c : CloudinaryCredentials)
  | cache (e : CachedPhotos)
deriving Repr, DecidableEq

/-- Association-list lookup keyed by string, as `AsyncStorage.getItem`. -/
def kvGet {β : Type} (st : List (String × β)) (k : String) : Option β :=
  (st.find? (fun p => p.1 == k)).map (fun p => p.2)

/-- Overwriting insert, as `AsyncStorage.setItem`. -/
def kvSet {β : Type} (st : List (String × β)) (k : String) (v : β) :
    List (String × β) :=
  (k, v) :: st.filter (fun p => p.1 != k)

/-- Key removal, as `AsyncStorage.removeItem`. -/
def kvRemove {β : Type} (st : List (String × β)) (k : String) :
    List (String × β) :=
  st.filter (fun p => p.1 != k)

/-- `s.startsWith(pre)` from the source, embedded as the prefix test on the
underlying character lists. -/
def strStartsWith (s pre : String) : Bool :=
  List.isPrefixOf pre.data s.data

/-- Process state: both persistent key-value backends, the memoized
secure-store availability probe of `storage.ts`, and fault-injection flags
describing which native operations raise. -/
structure World where
  async : List (String × StoredValue)
  secure : List (String × String)
  /-- the module-level `secureStoreAvailable` memo of `storage.ts` -/
  secAvailMemo : Option Bool
  /-- what `SecureStore.isAvailableAsync()` resolves to -/
  probeAvail : Bool
  /-- `SecureStore.isAvailableAsync()` rejects -/
  probeThrows : Bool
  /-- `AsyncStorage` operations reject -/
  asyncThrows : Bool
  /-- `SecureStore` item operations reject -/
  secureThrows : Bool
deriving Repr, DecidableEq

/-! ### storage.ts: key constants -/

def CLOUDINARY_CREDENTIALS_KEY : String := "@cloudinary_credentials"
def API_KEY_KEY : String := "cloudinary_api_key"
def API_SECRET_KEY : String := "cloudinary_api_secret"
def FALLBACK_API_KEY_KEY : String := "@cloudinary_api_key"
def FALLBACK_API_SECRET_KEY : String := "@cloudinary_api_secret"

/-! ### storage.ts: functions -/

/-- `isSecureStoreAvailable` of `storage.ts`: memoized availability probe;
a probe failure is caught and memoized as `false`. -/
def isSecureStoreAvailable (w : World) : Bool × World :=
  match w.secAvailMemo with
  | some b => (b, w)
  | none =>
    if w.probeThrows then
      (false, { w with secAvailMemo := some false })
    else
      (w.probeAvail, { w with secAvailMemo := some w.probeAvail })

/-- `getCloudinaryCredentials` of `storage.ts`: read and parse the display
credentials; any failure is caught and degrades to `null`. -/
def getCloudinaryCredentials (w : World) : Option CloudinaryCredentials :=
  if w.asyncThrows then none
  else
    match kvGet w.async CLOUDINARY_CREDENTIALS_KEY with
    | some (StoredValue.creds c) => some c
    | _ => none

/-- Body of `getCloudinaryApiCredentials` after the backend has been chosen:
reads the pair from the chosen backend; the JavaScript truthiness test
`if (apiKey && apiSecret)` requires both values non-null and non-empty. -/
def getApiCredsIn (useSecure : Bool) (w1 : World) :
    Option CloudinaryApiCredentials :=
  if useSecure then
    if w1.secureThrows then none
    else
      match kvGet w1.secure API_KEY_KEY, kvGet w1.secure API_SECRET_KEY with
      | some k, some s =>
          if k ≠ "" ∧ s ≠ "" then some ⟨k, s⟩ else none
      | _, _ => none
  else
    if w1.asyncThrows then none
    else
      match kvGet w1.async FALLBACK_API_KEY_KEY,
            kvGet w1.async FALLBACK_API_SECRET_KEY with
      | some (StoredValue.str k), some (StoredValue.str s) =>
          if k ≠ "" ∧ s ≠ "" then some ⟨k, s⟩ else none
      | _, _ => none

/-- `getCloudinaryApiCredentials` of `storage.ts`: probe (memoizing), then
read the secret pair from the chosen backend; errors are caught → `null`. -/
def getCloudinaryApiCredentials (w : World) :
    Option CloudinaryApiCredentials × World :=
  (getApiCredsIn (isSecureStoreAvailable w).1 (isSecureStoreAvailable w).2,
   (isSecureStoreAvailable w).2)

/-- `saveCloudinaryCredentials` of `storage.ts`: write the display
credentials; a storage failure is re-raised as `Failed to save credentials`. -/
def saveCloudinaryCredentials (w : World) (c : CloudinaryCredentials) :
    Except String Unit × World :=
  if w.asyncThrows then (Except.error "Failed to save credentials", w)
  else
    (Except.ok (),
     { w with async := kvSet w.async CLOUDINARY_CREDENTIALS_KEY (StoredValue.creds c) })

/-- Body of `saveCloudinaryApiCredentials` after the backend has been chosen. -/
def saveApiCredsIn (useSecure : Bool) (w1 : World) (apiKey apiSecret : String) :
    Except String Unit × World :=
  if useSecure then
    if w1.secureThrows then (Except.error "Failed to save API credentials", w1)
    else
      (Except.ok (),
       { w1 with secure := kvSet (kvSet w1.secure API_KEY_KEY apiKey)
                   API_SECRET_KEY apiSecret })
  else
    if w1.asyncThrows then (Except.error "Failed to save API credentials", w1)
    else
      (Except.ok (),
       { w1 with async := kvSet (kvSet w1.async FALLBACK_API_KEY_KEY
                   (StoredValue.str apiKey)) FALLBACK_API_SECRET_KEY
                   (StoredValue.str apiSecret) })

/-- `saveCloudinaryApiCredentials` of `storage.ts`. -/
def saveCloudinaryApiCredentials (w : World) (apiKey apiSecret : String) :
    Except String Unit × World :=
  saveApiCredsIn (isSecureStoreAvailable w).1 (isSecureStoreAvailable w).2
    apiKey apiSecret

/-- The display-credentials removal at the start of
`clearCloudinaryCredentials`. -/
def removeDisplayCreds (w : World) : World :=
  { w with async := kvRemove w.async CLOUDINARY_CREDENTIALS_KEY }

/-- The secret-pair removal of `clearCloudinaryCredentials` after the backend
has been chosen: `SecureStore.deleteItemAsync` twice, or
`AsyncStorage.multiRemove` of the two fallback keys. -/
def clearSecretsIn (useSecure : Bool) (w2 : World) :
    Except String Unit × World :=
  if useSecure then
    if w2.secureThrows then (Except.error "secure-delete", w2)
    else
      (Except.ok (),
       { w2 with secure := kvRemove (kvRemove w2.secure API_KEY_KEY)
                             API_SECRET_KEY })
  else
    if w2.asyncThrows then (Except.error "async-remove", w2)
    else
      (Except.ok (),
       { w2 with async := kvRemove (kvRemove w2.async FALLBACK_API_KEY_KEY)
                            FALLBACK_API_SECRET_KEY })

/-- The `try` block of `clearCloudinaryCredentials`: remove the display
credentials, then remove the secret pair from the backend selected by the
availability probe. -/
def clearBody (w : World) : Except String Unit × World :=
  if w.asyncThrows then (Except.error "async-remove", w)
  else
    clearSecretsIn (isSecureStoreAvailable (removeDisplayCreds w)).1
      (isSecureStoreAvailable (removeDisplayCreds w)).2

/-- `clearCloudinaryCredentials` of `storage.ts`: the whole body is wrapped in
`try`/`catch`, so an error is logged and the promise still resolves. -/
def clearCloudinaryCredentials (w : World) : Except String Unit × World :=
  match clearBody w with
  | (Except.error _, w') => (Except.ok (), w')
  | (Except.ok _, w') => (Except.ok (), w')

/-! ### photoCache.ts -/

def PHOTO_CACHE_KEY : String := "photo_cache"

/-- `CACHE_EXPIRY_MS = 5 * 60 * 1000` (5 minutes), from `photoCache.ts`. -/
def CACHE_EXPIRY_MS : Nat := 5 * 60 * 1000

/-- The storage key `` `${PHOTO_CACHE_KEY}_${folder}` `` used by all three
cache functions. -/
def cacheKey (folder : String) : String := PHOTO_CACHE_KEY ++ "_" ++ folder

/-- `getCachedPhotos` of `photoCache.ts`: read the folder's entry and return
its photos iff the entry is younger than the TTL and its `folder` field
matches; any failure is caught and degrades to `null`. -/
def getCachedPhotos (w : World) (folder : String) (now : Nat) :
    Option (List Photo) :=
  if w.asyncThrows then none
  else
    match kvGet w.async (cacheKey folder) with
    | some (StoredValue.cache d) =>
        if now - d.timestamp < CACHE_EXPIRY_MS ∧ d.folder = folder then
          some d.photos
        else none
    | _ => none

/-- `cachePhotos` of `photoCache.ts`: overwrite the folder's entry with a
freshly timestamped one; failures are caught and logged only. -/
def cachePhotos (w : World) (photos : List Photo) (folder : String)
    (now : Nat) : World :=
  if w.asyncThrows then w
  else
    { w with async := kvSet w.async (cacheKey folder)
                        (StoredValue.cache ⟨photos, now, folder⟩) }

/-- `clearPhotoCache` of `photoCache.ts`: with a folder, remove that folder's
key; without one, remove every key starting with `PHOTO_CACHE_KEY`; failures
are caught and logged only. -/
def clearPhotoCache (w : World) (folder : Option String) : World :=
  if w.asyncThrows then w
  else
    match folder with
    | some f => { w with async := kvRemove w.async (cacheKey f) }
    | none =>
        { w with async :=
            w.async.filter (fun p => !(strStartsWith p.1 PHOTO_CACHE_KEY)) }

/-! ### photos.tsx: the gallery loader -/

/-- Which exit path `loadPhotos` took.  The paths are observationally
distinct in the source: missing display credentials stop silently, missing
secret credentials show the `API Credentials Required` alert, a foreground
fetch failure shows an error toast, and the remaining paths render photos. -/
inductive LoadOutcome where
  | gateDisplayMissing
  | gateSecretMissing
  | loaded
  | failed (msg : String)
deriving Repr, DecidableEq

/-- The React state of `PhotosScreen` touched by `loadPhotos`. -/
structure LoaderState where
  photos : List Photo
  loading : Bool
  refreshing : Bool
deriving Repr, DecidableEq

/-- Everything observable about one `loadPhotos` call: the final component
state, the exit path, the UI effects, how many `fetchPhotos` network calls
were made, and the final storage world. -/
structure LoadResult where
  state : LoaderState
  outcome : LoadOutcome
  alertShown : Bool
  errorToast : Option String
  networkCalls : Nat
  world : World
deriving Repr, DecidableEq

/-- `credentials.folder || 'Modeling'` (JavaScript truthiness: an empty or
absent folder falls back to the literal). -/
def resolveFolder (c : CloudinaryCredentials) : String :=
  match c.folder with
  | some f => if f ≠ "" then f else "Modeling"
  | none => "Modeling"

/-- The synchronous foreground fetch at the end of `loadPhotos` ("Fetch from
API"): on success set the photos and cache them, on failure show the error
toast; `finally` clears `loading` and `refreshing`. -/
def loadSync (s : LoaderState) (w1 : World) (folder : String)
    (fetch : Except String (List Photo)) (now : Nat) : LoadResult :=
  match fetch with
  | Except.ok fetchedPhotos =>
      { state := { photos := fetchedPhotos, loading := false, refreshing := false },
        outcome := LoadOutcome.loaded, alertShown := false, errorToast := none,
        networkCalls := 1, world := cachePhotos w1 fetchedPhotos folder now }
  | Except.error msg =>
      { state := { s with loading := false, refreshing := false },
        outcome := LoadOutcome.failed msg, alertShown := false,
        errorToast := some msg, networkCalls := 1, world := w1 }

/-- `loadPhotos` of `photos.tsx`.  `fetch` is the result every `fetchPhotos`
network call resolves to; the background reconciliation fetch issued on a
cache hit is run to completion (silently dropped on failure, as in the
source's `.catch(() => {})`). -/
def loadPhotos (s : LoaderState) (w : World) (useCache : Bool)
    (fetch : Except String (List Photo)) (now : Nat) : LoadResult :=
  match getCloudinaryCredentials w with
  | none =>
      { state := { s with loading := false, refreshing := false },
        outcome := LoadOutcome.gateDisplayMissing, alertShown := false,
        errorToast := none, networkCalls := 0,
        world := (getCloudinaryApiCredentials w).2 }
  | some credentials =>
    match (getCloudinaryApiCredentials w).1 with
    | none =>
        { state := { s with loading := false, refreshing := false },
          outcome := LoadOutcome.gateSecretMissing, alertShown := true,
          errorToast := none, networkCalls := 0,
          world := (getCloudinaryApiCredentials w).2 }
    | some _ =>
      match (if useCache then
              getCachedPhotos (getCloudinaryApiCredentials w).2
                (resolveFolder credentials) now
             else none) with
      | some cachedPhotos =>
        if cachedPhotos.length > 0 then
          match fetch with
          | Except.ok fetchedPhotos =>
              { state := { photos := fetchedPhotos, loading := false,
                           refreshing := false },
                outcome := LoadOutcome.loaded, alertShown := false,
                errorToast := none, networkCalls := 1,
                world := cachePhotos (getCloudinaryApiCredentials w).2
                  fetchedPhotos (resolveFolder credentials) now }
          | Except.error _ =>
              { state := { photos := cachedPhotos, loading := false,
                           refreshing := false },
                outcome := LoadOutcome.loaded, alertShown := false,
                errorToast := none, networkCalls := 1,
                world := (getCloudinaryApiCredentials w).2 }
        else
          loadSync s (getCloudinaryApiCredentials w).2
            (resolveFolder credentials) fetch now
      | none =>
          loadSync s (getCloudinaryApiCredentials w).2
            (resolveFolder credentials) fetch now

/-- `onRefresh` of `photos.tsx`: set `refreshing`, clear the whole photo
cache, then `loadPhotos(false)` (each awaited operation run to completion in
program order). -/
def onRefresh (s : LoaderState) (w : World)
    (fetch : Except String (List Photo)) (now : Nat) : LoadResult :=
  loadPhotos { s with refreshing := true } (clearPhotoCache w none) false
    fetch now

/-! ### upload.tsx: handleUpload -/

/-- `UploadResponse` of `uploadService.ts` (fields used by `handleUpload`). -/
structure UploadResponse where
  public_id : String
  secure_url : String
  width : Nat
  height : Nat
  format : String
  bytes : Nat
deriving Repr, DecidableEq

/-- The observable effects of one `handleUpload` call in `upload.tsx`. -/
structure UploadScreenResult where
  warningToast : Bool
  credAlertShown : Bool
  successToast : Bool
  errorToast : Option String
  metadataAttempted : Bool
  metadataErrorLogged : Option String
deriving Repr, DecidableEq

/-- The tags parsing of `handleUpload`: split on commas, trim, drop empties. -/
def parseTags (tags : String) : List String :=
  ((tags.splitOn ",").map (fun t => t.trim)).filter (fun t => t != "")

/-- `handleUpload` of `upload.tsx`.  `uploadResult` is what
`uploadImageToCloudinary` resolves to and `metaResult` what
`updateImageMetadata` resolves to when called.  The inner `try`/`catch`
around the metadata update logs its failure and continues; the success toast
is shown afterwards regardless. -/
def handleUpload (hasSelectedImage : Bool) (w : World)
    (description tags : String)
    (uploadResult : Except String UploadResponse)
    (metaResult : Except String Unit) : UploadScreenResult :=
  if !hasSelectedImage then
    { warningToast := true, credAlertShown := false, successToast := false,
      errorToast := none, metadataAttempted := false,
      metadataErrorLogged := none }
  else
    match getCloudinaryCredentials w with
    | none =>
        { warningToast := false, credAlertShown := true, successToast := false,
          errorToast := none, metadataAttempted := false,
          metadataErrorLogged := none }
    | some _ =>
      match uploadResult with
      | Except.error msg =>
          { warningToast := false, credAlertShown := false,
            successToast := false, errorToast := some msg,
            metadataAttempted := false, metadataErrorLogged := none }
      | Except.ok uploadRes =>
        if (description ≠ "" ∨ (parseTags tags).length > 0) ∧
            uploadRes.public_id ≠ "" then
          match (getCloudinaryApiCredentials w).1 with
          | some _ =>
              match metaResult with
              | Except.ok _ =>
                  { warningToast := false, credAlertShown := false,
                    successToast := true, errorToast := none,
                    metadataAttempted := true, metadataErrorLogged := none }
              | Except.error e =>
                  { warningToast := false, credAlertShown := false,
                    successToast := true, errorToast := none,
                    metadataAttempted := true, metadataErrorLogged := some e }
          | none =>
              { warningToast := false, credAlertShown := false,
                successToast := true, errorToast := none,
                metadataAttempted := false, metadataErrorLogged := none }
        else
          { warningToast := false, credAlertShown := false,
            successToast := true, errorToast := none,
            metadataAttempted := false, metadataErrorLogged := none }

/-! ### Generic key-value store lemmas -/

theorem kvGet_cons {β : Type} (a : String × β) (t : List (String × β))
    (k : String) :
    kvGet (a :: t) k = if a.1 = k then some a.2 else kvGet t k := by
  simp only [kvGet]
  rw [List.find?_cons]
  by_cases h : a.1 = k
  · simp [h]
  · have hb : (a.1 == k) = false := by simp [h]
    simp [h, hb]

theorem kvGet_kvSet_self {β : Type} (st : List (String × β)) (k : String)
    (v : β) : kvGet (kvSet st k v) k = some v := by
  simp [kvSet, kvGet_cons]

theorem kvGet_filter_key_ne {β : Type} (st : List (String × β))
    (k k' : String) (h : k' ≠ k) :
    kvGet (st.filter (fun p => p.1 != k)) k' = kvGet st k' := by
  induction st with
  | nil => rfl
  | cons a t ih =>
    rw [List.filter_cons]
    by_cases ha : a.1 = k
    · have hkk : k ≠ k' := fun e => h e.symm
      simp [ha, kvGet_cons, hkk, ih]
    · simp [ha, kvGet_cons, ih]

theorem kvGet_kvSet_ne {β : Type} (st : List (String × β)) (k k' : String)
    (v : β) (h : k' ≠ k) : kvGet (kvSet st k v) k' = kvGet st k' := by
  have : k ≠ k' := fun e => h e.symm
  simp [kvSet, kvGet_cons, this, kvGet_filter_key_ne st k k' h]

theorem kvGet_kvRemove_self {β : Type} (st : List (String × β)) (k : String) :
    kvGet (kvRemove st k) k = none := by
  induction st with
  | nil => rfl
  | cons a t ih =>
    rw [kvRemove, List.filter_cons]
    by_cases ha : a.1 = k
    · simpa [ha, kvRemove] using ih
    · simpa [ha, kvGet_cons, kvRemove] using ih

theorem kvGet_kvRemove_ne {β : Type} (st : List (String × β)) (k k' : String)
    (h : k' ≠ k) : kvGet (kvRemove st k) k' = kvGet st k' :=
  kvGet_filter_key_ne st k k' h

theorem kvGet_clearFilter_of_startsWith {β : Type} (st : List (String × β))
    (pre k : String) (h : strStartsWith k pre = true) :
    kvGet (st.filter (fun p => !(strStartsWith p.1 pre))) k = none := by
  induction st with
  | nil => rfl
  | cons a t ih =>
    rw [List.filter_cons]
    by_cases ha : strStartsWith a.1 pre = true
    · simp [ha, ih]
    · have hne : a.1 ≠ k := fun e => ha (by rw [e]; exact h)
      simp [ha, kvGet_cons, hne, ih]

theorem kvGet_clearFilter_of_not {β : Type} (st : List (String × β))
    (pre k : String) (h : strStartsWith k pre = false) :
    kvGet (st.filter (fun p => !(strStartsWith p.1 pre))) k = kvGet st k := by
  induction st with
  | nil => rfl
  | cons a t ih =>
    rw [List.filter_cons]
    by_cases ha : strStartsWith a.1 pre = true
    · have hne : a.1 ≠ k := fun e => by rw [e, h] at ha; exact Bool.noConfusion ha
      simp [ha, kvGet_cons, hne, ih]
    · simp [ha, kvGet_cons, ih]

/-! ### Cache-key lemmas -/

theorem cacheKey_startsWith (f : String) :
    strStartsWith (cacheKey f) PHOTO_CACHE_KEY = true := by
  simp only [strStartsWith, cacheKey, PHOTO_CACHE_KEY, String.data_append]
  simp [ List.isPrefixOf_iff_prefix, List.append_assoc]

theorem cacheKey_inj {f g : String} (h : cacheKey f = cacheKey g) : f = g := by
  have hd := congrArg String.data h
  simp only [cacheKey, String.data_append, List.append_assoc,
    List.append_cancel_left_eq] at hd
  cases f; cases g
  simp only [] at hd
  exact congrArg String.mk hd

/-! ### World bookkeeping lemmas -/

theorem isSecureStoreAvailable_fields (w : World) :
    (isSecureStoreAvailable w).2.async = w.async ∧
    (isSecureStoreAvailable w).2.secure = w.secure ∧
    (isSecureStoreAvailable w).2.asyncThrows = w.asyncThrows ∧
    (isSecureStoreAvailable w).2.secureThrows = w.secureThrows := by
  rcases hm : w.secAvailMemo with _ | b
  · by_cases hp : w.probeThrows <;> simp [isSecureStoreAvailable, hm, hp]
  · simp [isSecureStoreAvailable, hm]

theorem isSecureStoreAvailable_memo (w : World) :
    (isSecureStoreAvailable w).2.secAvailMemo =
      some (isSecureStoreAvailable w).1 := by
  rcases hm : w.secAvailMemo with _ | b
  · by_cases hp : w.probeThrows <;> simp [isSecureStoreAvailable, hm, hp]
  · simp [isSecureStoreAvailable, hm]

theorem isSecureStoreAvailable_bool_congr (w1 w2 : World)
    (hm : w1.secAvailMemo = w2.secAvailMemo)
    (hp : w1.probeThrows = w2.probeThrows)
    (ha : w1.probeAvail = w2.probeAvail) :
    (isSecureStoreAvailable w1).1 = (isSecureStoreAvailable w2).1 := by
  rcases h2 : w2.secAvailMemo with _ | b
  · by_cases hpt : w2.probeThrows <;>
      simp [isSecureStoreAvailable, hm, h2, hp, hpt, ha]
  · simp [isSecureStoreAvailable, hm, h2]

theorem async_after_api (w : World) :
    (getCloudinaryApiCredentials w).2.async = w.async :=
  (isSecureStoreAvailable_fields w).1

theorem getCachedPhotos_after_api (w : World) (f : String) (t : Nat) :
    getCachedPhotos (getCloudinaryApiCredentials w).2 f t =
      getCachedPhotos w f t := by
  have h := isSecureStoreAvailable_fields w
  simp [getCachedPhotos, getCloudinaryApiCredentials, h.1, h.2.2.1]

theorem clearPhotoCache_all_fields (w : World) :
    (clearPhotoCache w none).secure = w.secure ∧
    (clearPhotoCache w none).secAvailMemo = w.secAvailMemo ∧
    (clearPhotoCache w none).probeAvail = w.probeAvail ∧
    (clearPhotoCache w none).probeThrows = w.probeThrows ∧
    (clearPhotoCache w none).asyncThrows = w.asyncThrows ∧
    (clearPhotoCache w none).secureThrows = w.secureThrows := by
  by_cases ht : w.asyncThrows <;> simp [clearPhotoCache, ht]

theorem removeDisplayCreds_fields (w : World) :
    (removeDisplayCreds w).secure = w.secure ∧
    (removeDisplayCreds w).secAvailMemo = w.secAvailMemo ∧
    (removeDisplayCreds w).probeAvail = w.probeAvail ∧
    (removeDisplayCreds w).probeThrows = w.probeThrows ∧
    (removeDisplayCreds w).asyncThrows = w.asyncThrows ∧
    (removeDisplayCreds w).secureThrows = w.secureThrows := by
  simp [removeDisplayCreds]

/-- The cache put/get round trip, with the freshness window made explicit:
the entry written at `now` is served at `t` exactly when `t - now` is below
the TTL (the entry's folder field always matches the requested folder). -/
theorem getCachedPhotos_cachePhotos_self (w : World) (ps : List Photo)
    (f : String) (now t : Nat) (hw : w.asyncThrows = false) :
    getCachedPhotos (cachePhotos w ps f now) f t =
      (if t - now < CACHE_EXPIRY_MS then some ps else none) := by
  have hset : kvGet (cachePhotos w ps f now).async (cacheKey f) =
      some (StoredValue.cache ⟨ps, now, f⟩) := by
    simp [cachePhotos, hw, kvGet_kvSet_self]
  have hthrows : (cachePhotos w ps f now).asyncThrows = false := by
    simp [cachePhotos, hw]
  rw [getCachedPhotos, if_neg (by simp [hthrows]), hset]
  by_cases hfresh : t - now < CACHE_EXPIRY_MS <;> simp [hfresh]

theorem strStartsWith_credsKey_false :
    strStartsWith CLOUDINARY_CREDENTIALS_KEY PHOTO_CACHE_KEY = false := by
  decide

theorem strStartsWith_fbKey_false :
    strStartsWith FALLBACK_API_KEY_KEY PHOTO_CACHE_KEY = false := by decide

theorem strStartsWith_fbSecret_false :
    strStartsWith FALLBACK_API_SECRET_KEY PHOTO_CACHE_KEY = false := by decide

/-- Clearing the whole photo cache leaves no readable entry for any folder. -/
theorem getCachedPhotos_after_clearAll (w : World) (hw : w.asyncThrows = false)
    (f : String) (t : Nat) :
    getCachedPhotos (clearPhotoCache w none) f t = none := by
  simp [clearPhotoCache, hw, getCachedPhotos,
    kvGet_clearFilter_of_startsWith w.async PHOTO_CACHE_KEY (cacheKey f)
      (cacheKey_startsWith f)]

/-- Clearing the whole photo cache does not touch the display credentials. -/
theorem getDisplay_after_clearAll (w : World) :
    getCloudinaryCredentials (clearPhotoCache w none) =
      getCloudinaryCredentials w := by
  by_cases ht : w.asyncThrows
  · simp [clearPhotoCache, ht]
  · simp [clearPhotoCache, ht, getCloudinaryCredentials,
      kvGet_clearFilter_of_not w.async PHOTO_CACHE_KEY
        CLOUDINARY_CREDENTIALS_KEY strStartsWith_credsKey_false]

/-- Clearing the whole photo cache does not affect what
`getCloudinaryApiCredentials` returns. -/
theorem getApi_after_clearAll (w : World) :
    (getCloudinaryApiCredentials (clearPhotoCache w none)).1 =
      (getCloudinaryApiCredentials w).1 := by
  by_cases ht : w.asyncThrows
  · simp [clearPhotoCache, ht]
  · have hcf := clearPhotoCache_all_fields w
    have hb : (isSecureStoreAvailable (clearPhotoCache w none)).1 =
        (isSecureStoreAvailable w).1 :=
      isSecureStoreAvailable_bool_congr _ _ hcf.2.1 hcf.2.2.2.1 hcf.2.2.1
    have h1 := isSecureStoreAvailable_fields (clearPhotoCache w none)
    have h2 := isSecureStoreAvailable_fields w
    rw [getCloudinaryApiCredentials, getCloudinaryApiCredentials, hb]
    cases hbv : (isSecureStoreAvailable w).1
    · have hasync : (clearPhotoCache w none).async =
          w.async.filter (fun p => !(strStartsWith p.1 PHOTO_CACHE_KEY)) := by
        simp [clearPhotoCache, ht]
      simp [getApiCredsIn, h1.1, h1.2.2.1, h2.1, h2.2.2.1, hcf.2.2.2.2.1,
        hasync,
        kvGet_clearFilter_of_not w.async PHOTO_CACHE_KEY FALLBACK_API_KEY_KEY
          strStartsWith_fbKey_false,
        kvGet_clearFilter_of_not w.async PHOTO_CACHE_KEY
          FALLBACK_API_SECRET_KEY strStartsWith_fbSecret_false]
    · simp [getApiCredsIn, h1.2.1, h1.2.2.2, h2.2.1, h2.2.2.2, hcf.1,
        hcf.2.2.2.2.2]

/-! ### Concrete objects used by witnesses -/

def photoA : Photo := ⟨"https://x/a.jpg", "a", ["t"], 10, 10, "pa"⟩

def emptyWorld : World := ⟨[], [], none, false, false, false, false⟩

def s0 : LoaderState := ⟨[], true, false⟩

def displayCreds : CloudinaryCredentials := ⟨"demo", "unsigned", some "A"⟩

def apiCreds : CloudinaryApiCredentials := ⟨"key1", "secret1"⟩

/-- Display credentials stored, no secret credentials, fallback backend. -/
def worldDisplayOnly : World :=
  ⟨[(CLOUDINARY_CREDENTIALS_KEY, StoredValue.creds displayCreds)], [],
   some false, false, false, false, false⟩

/-- Display credentials and fallback secret credentials stored. -/
def worldFull : World :=
  ⟨[(CLOUDINARY_CREDENTIALS_KEY, StoredValue.creds displayCreds),
    (FALLBACK_API_KEY_KEY, StoredValue.str "key1"),
    (FALLBACK_API_SECRET_KEY, StoredValue.str "secret1")], [],
   some false, false, false, false, false⟩

/-! ### Claim theorems -/

/-- C1: for every `loadPhotos` call, if display credentials are absent, or
display credentials are present and secret credentials are absent, the loader
stops in the corresponding credential-gate exit (the two reasons are distinct
values, and only the secret-missing one shows the alert) and no `fetchPhotos`
network call is attempted. -/
theorem loader_credential_gate (s : LoaderState) (w : World) (useCache : Bool)
    (fetch : Except String (List Photo)) (now : Nat) :
    (getCloudinaryCredentials w = none →
      (loadPhotos s w useCache fetch now).outcome =
        LoadOutcome.gateDisplayMissing ∧
      (loadPhotos s w useCache fetch now).networkCalls = 0) ∧
    (∀ c, getCloudinaryCredentials w = some c →
      (getCloudinaryApiCredentials w).1 = none →
      (loadPhotos s w useCache fetch now).outcome =
        LoadOutcome.gateSecretMissing ∧
      (loadPhotos s w useCache fetch now).alertShown = true ∧
      (loadPhotos s w useCache fetch now).networkCalls = 0) ∧
    LoadOutcome.gateDisplayMissing ≠ LoadOutcome.gateSecretMissing := by
  refine ⟨?_, ?_, by simp⟩
  · intro h
    simp [loadPhotos, h]
  · intro c hc ha
    simp [loadPhotos, hc, ha]

theorem loader_credential_gate_witness :
    ((loadPhotos s0 emptyWorld true (Except.error "net") 0).outcome =
       LoadOutcome.gateDisplayMissing ∧
     (loadPhotos s0 emptyWorld true (Except.error "net") 0).networkCalls = 0) ∧
    ((loadPhotos s0 worldDisplayOnly true (Except.error "net") 0).outcome =
       LoadOutcome.gateSecretMissing ∧
     (loadPhotos s0 worldDisplayOnly true (Except.error "net") 0).alertShown =
       true ∧
     (loadPhotos s0 worldDisplayOnly true (Except.error "net") 0).networkCalls =
       0) := by
  refine ⟨?_, ?_⟩
  · exact (loader_credential_gate s0 emptyWorld true (Except.error "net") 0).1
      (by decide)
  · exact ((loader_credential_gate s0 worldDisplayOnly true
      (Except.error "net") 0).2.1) displayCreds (by decide) (by decide)

/-- C2: on a fresh, non-empty cache hit, a failing background fetch leaves
the visible photo list equal to the stale cached list, surfaces no error, and
leaves the persistent store (hence the cache entry) unchanged. -/
theorem stale_while_revalidate_bg_failure (s : LoaderState) (w : World)
    (creds : CloudinaryCredentials) (api : CloudinaryApiCredentials)
    (cached : List Photo) (msg : String) (now : Nat)
    (hc : getCloudinaryCredentials w = some creds)
    (ha : (getCloudinaryApiCredentials w).1 = some api)
    (hcache : getCachedPhotos w (resolveFolder creds) now = some cached)
    (hne : cached ≠ []) :
    (loadPhotos s w true (Except.error msg) now).state.photos = cached ∧
    (loadPhotos s w true (Except.error msg) now).errorToast = none ∧
    (loadPhotos s w true (Except.error msg) now).outcome =
      LoadOutcome.loaded ∧
    (loadPhotos s w true (Except.error msg) now).world.async = w.async := by
  have hcache2 : getCachedPhotos (getCloudinaryApiCredentials w).2
      (resolveFolder creds) now = some cached := by
    rw [getCachedPhotos_after_api]; exact hcache
  have hlen : cached.length > 0 := List.length_pos.mpr hne
  simp [loadPhotos, hc, ha, hcache2, hlen, async_after_api]

theorem stale_while_revalidate_bg_failure_witness :
    getCachedPhotos (cachePhotos worldFull [photoA] "A" 0) "A" 0 =
      some [photoA] ∧
    (loadPhotos s0 (cachePhotos worldFull [photoA] "A" 0) true
       (Except.error "gateway") 0).state.photos = [photoA] ∧
    (loadPhotos s0 (cachePhotos worldFull [photoA] "A" 0) true
       (Except.error "gateway") 0).errorToast = none := by
  have h := stale_while_revalidate_bg_failure s0
    (cachePhotos worldFull [photoA] "A" 0) displayCreds apiCreds [photoA]
    "gateway" 0 (by decide) (by decide) (by decide) (by decide)
  exact ⟨by decide, h.1, h.2.1⟩

/-- C3: `cachePhotos` followed immediately by `getCachedPhotos` for the same
folder returns the stored list, and an entry of age `age` is served exactly
when `age < CACHE_EXPIRY_MS` (so age `TTL - 1` is a hit and age `TTL` is a
miss). -/
theorem cache_put_get_roundtrip_ttl (w : World) (ps : List Photo) (f : String)
    (now age : Nat) (hw : w.asyncThrows = false) :
    getCachedPhotos (cachePhotos w ps f now) f now = some ps ∧
    getCachedPhotos (cachePhotos w ps f now) f (now + age) =
      (if age < CACHE_EXPIRY_MS then some ps else none) := by
  constructor
  · rw [getCachedPhotos_cachePhotos_self w ps f now now hw]
    simp [CACHE_EXPIRY_MS]
  · rw [getCachedPhotos_cachePhotos_self w ps f now (now + age) hw,
      Nat.add_sub_cancel_left]

theorem cache_put_get_roundtrip_ttl_witness :
    getCachedPhotos (cachePhotos emptyWorld [photoA] "A" 0) "A" 0 =
      some [photoA] ∧
    getCachedPhotos (cachePhotos emptyWorld [photoA] "A" 0) "A"
      (0 + 299999) = some [photoA] ∧
    getCachedPhotos (cachePhotos emptyWorld [photoA] "A" 0) "A"
      (0 + 300000) = none := by
  have h1 := cache_put_get_roundtrip_ttl emptyWorld [photoA] "A" 0 299999 rfl
  have h2 := cache_put_get_roundtrip_ttl emptyWorld [photoA] "A" 0 300000 rfl
  refine ⟨h1.1, ?_, ?_⟩
  · rw [h1.2]; norm_num [CACHE_EXPIRY_MS]
  · rw [h2.2]; norm_num [CACHE_EXPIRY_MS]

/-- C9: a cache entry stored for folder `X` is never served for a distinct
folder `Y` (the folder-scoped key differs), and even an entry sitting under
`Y`'s key whose `folder` field is not `Y` is rejected by the folder check. -/
theorem cache_folder_isolation :
    (∀ (w : World) (ps : List Photo) (X Y : String) (now t : Nat),
      X ≠ Y → kvGet w.async (cacheKey Y) = none →
      getCachedPhotos (cachePhotos w ps X now) Y t = none) ∧
    (∀ (w : World) (e : CachedPhotos) (Y : String) (t : Nat),
      kvGet w.async (cacheKey Y) = some (StoredValue.cache e) →
      e.folder ≠ Y → getCachedPhotos w Y t = none) := by
  constructor
  · intro w ps X Y now t hXY hY
    by_cases hw : w.asyncThrows
    · simp [cachePhotos, hw, getCachedPhotos]
    · have hkk : cacheKey Y ≠ cacheKey X := fun e => hXY (cacheKey_inj e).symm
      simp [cachePhotos, hw, getCachedPhotos,
        kvGet_kvSet_ne w.async (cacheKey X) (cacheKey Y) _ hkk, hY]
  · intro w e Y t hY hf
    by_cases hw : w.asyncThrows <;> simp [getCachedPhotos, hw, hY, hf]

theorem cache_folder_isolation_witness :
    getCachedPhotos (cachePhotos emptyWorld [photoA] "X" 0) "Y" 0 = none ∧
    getCachedPhotos
      ⟨[(cacheKey "Y", StoredValue.cache ⟨[photoA], 0, "X"⟩)], [], none,
       false, false, false, false⟩ "Y" 0 = none := by
  refine ⟨?_, ?_⟩
  · exact cache_folder_isolation.1 emptyWorld [photoA] "X" "Y" 0 0
      (by decide) (by decide)
  · exact cache_folder_isolation.2
      ⟨[(cacheKey "Y", StoredValue.cache ⟨[photoA], 0, "X"⟩)], [], none,
       false, false, false, false⟩ ⟨[photoA], 0, "X"⟩ "Y" 0 (by decide)
      (by decide)

/-- C10: a fresh cache entry holding the empty photo list is treated as a
cache miss: `loadPhotos` with `useCache = true` behaves exactly as with
`useCache = false`, falling through to the synchronous foreground fetch. -/
theorem empty_cache_entry_is_miss (s : LoaderState) (w : World)
    (creds : CloudinaryCredentials) (api : CloudinaryApiCredentials)
    (fetch : Except String (List Photo)) (now : Nat)
    (hc : getCloudinaryCredentials w = some creds)
    (ha : (getCloudinaryApiCredentials w).1 = some api)
    (hcache : getCachedPhotos w (resolveFolder creds) now = some []) :
    loadPhotos s w true fetch now = loadPhotos s w false fetch now := by
  have hcache2 : getCachedPhotos (getCloudinaryApiCredentials w).2
      (resolveFolder creds) now = some [] := by
    rw [getCachedPhotos_after_api]; exact hcache
  simp [loadPhotos, hc, ha, hcache2]

theorem empty_cache_entry_is_miss_witness :
    getCachedPhotos (cachePhotos worldFull [] "A" 0) "A" 0 = some [] ∧
    loadPhotos s0 (cachePhotos worldFull [] "A" 0) true
      (Except.ok [photoA]) 0 =
    loadPhotos s0 (cachePhotos worldFull [] "A" 0) false
      (Except.ok [photoA]) 0 := by
  refine ⟨by decide, ?_⟩
  exact empty_cache_entry_is_miss s0 (cachePhotos worldFull [] "A" 0)
    displayCreds apiCreds (Except.ok [photoA]) 0 (by decide) (by decide)
    (by decide)

/-- C4: `onRefresh` is exactly "clear every photo-cache entry (all folders,
via the shared key prefix), then `loadPhotos(useCache = false)`"; just after
the clear, no folder has a readable cache entry; the load step performs
exactly one synchronous fetch, whose successful result is cached for the
current folder. -/
theorem refresh_clears_all_then_single_fetch (s : LoaderState) (w : World)
    (creds : CloudinaryCredentials) (api : CloudinaryApiCredentials)
    (fetch : Except String (List Photo)) (now : Nat)
    (hw : w.asyncThrows = false)
    (hc : getCloudinaryCredentials w = some creds)
    (ha : (getCloudinaryApiCredentials w).1 = some api) :
    (∀ (f : String) (t : Nat),
      getCachedPhotos (clearPhotoCache w none) f t = none) ∧
    onRefresh s w fetch now =
      loadPhotos { s with refreshing := true } (clearPhotoCache w none) false
        fetch now ∧
    (onRefresh s w fetch now).networkCalls = 1 ∧
    (∀ ps, fetch = Except.ok ps →
      getCachedPhotos (onRefresh s w fetch now).world (resolveFolder creds)
        now = some ps) := by
  have hc2 : getCloudinaryCredentials (clearPhotoCache w none) = some creds := by
    rw [getDisplay_after_clearAll]; exact hc
  have ha2 : (getCloudinaryApiCredentials (clearPhotoCache w none)).1 =
      some api := by
    rw [getApi_after_clearAll]; exact ha
  have hthrows :
      (getCloudinaryApiCredentials (clearPhotoCache w none)).2.asyncThrows =
        false := by
    have h1 := (isSecureStoreAvailable_fields (clearPhotoCache w none)).2.2.1
    have h2 := (clearPhotoCache_all_fields w).2.2.2.2.1
    exact h1.trans (h2.trans hw)
  refine ⟨fun f t => getCachedPhotos_after_clearAll w hw f t, rfl, ?_, ?_⟩
  · cases fetch <;> simp [onRefresh, loadPhotos, hc2, ha2, loadSync]
  · intro ps hf
    subst hf
    simp [onRefresh, loadPhotos, hc2, ha2, loadSync]
    rw [getCachedPhotos_cachePhotos_self _ ps (resolveFolder creds) now now
      hthrows]
    simp [CACHE_EXPIRY_MS]

def worldAB : World :=
  cachePhotos (cachePhotos worldFull [photoA] "A" 0) [photoA] "B" 0

theorem refresh_clears_all_then_single_fetch_witness :
    getCachedPhotos worldAB "A" 0 = some [photoA] ∧
    getCachedPhotos worldAB "B" 0 = some [photoA] ∧
    getCachedPhotos (clearPhotoCache worldAB none) "A" 0 = none ∧
    getCachedPhotos (clearPhotoCache worldAB none) "B" 0 = none ∧
    (onRefresh s0 worldAB (Except.ok [photoA]) 5).networkCalls = 1 ∧
    getCachedPhotos (onRefresh s0 worldAB (Except.ok [photoA]) 5).world
      (resolveFolder displayCreds) 5 = some [photoA] := by
  have h := refresh_clears_all_then_single_fetch s0 worldAB displayCreds
    apiCreds (Except.ok [photoA]) 5 (by decide) (by decide) (by decide)
  exact ⟨by decide, by decide, h.1 "A" 0, h.1 "B" 0, h.2.2.1,
    h.2.2.2 [photoA] rfl⟩

/-- Display credentials stored in the fallback namespace together with
secret credentials in BOTH backends, while the secure backend is available:
the configuration that separates clearing "both key namespaces" from
clearing only the probe-selected one. -/
def worldBothBackends : World :=
  ⟨[(CLOUDINARY_CREDENTIALS_KEY, StoredValue.creds displayCreds),
    (FALLBACK_API_KEY_KEY, StoredValue.str "fk"),
    (FALLBACK_API_SECRET_KEY, StoredValue.str "fs")],
   [(API_KEY_KEY, "sk"), (API_SECRET_KEY, "ss")],
   some true, true, false, false, false⟩

/-- C5 counterexample: with the secure backend available and secret values
present under the fallback-namespace keys as well, `clearCloudinaryCredentials`
resolves normally but leaves the fallback-namespace keys fully intact — it
does not clear "both the secure backend's keys and the fallback-namespace
keys". -/
theorem clear_credentials_counterexample :
    (clearCloudinaryCredentials worldBothBackends).1 = Except.ok () ∧
    kvGet (clearCloudinaryCredentials worldBothBackends).2.async
      FALLBACK_API_KEY_KEY = some (StoredValue.str "fk") ∧
    kvGet (clearCloudinaryCredentials worldBothBackends).2.async
      FALLBACK_API_SECRET_KEY = some (StoredValue.str "fs") ∧
    kvGet (clearCloudinaryCredentials worldBothBackends).2.secure
      API_KEY_KEY = none :=
  ⟨rfl, by decide, by decide, by decide⟩

/-- C5 (amended): `clearCloudinaryCredentials` removes the display
credentials and removes the secret pair from the one backend selected by the
availability probe (the secure keys when the probe reports available, the
fallback-namespace keys otherwise — not both); the keys of the unselected
backend are left in place (fallback-namespace keys read unchanged when the
secure backend is selected, and the secure store is unchanged when the
fallback is selected); and it never raises: any storage failure is caught
and logged. -/
theorem clear_credentials_scoped (w : World) (hw : w.asyncThrows = false)
    (hs : w.secureThrows = false) :
    (∀ v : World, (clearCloudinaryCredentials v).1 = Except.ok ()) ∧
    kvGet (clearCloudinaryCredentials w).2.async CLOUDINARY_CREDENTIALS_KEY =
      none ∧
    ((isSecureStoreAvailable w).1 = true →
      kvGet (clearCloudinaryCredentials w).2.secure API_KEY_KEY = none ∧
      kvGet (clearCloudinaryCredentials w).2.secure API_SECRET_KEY = none ∧
      kvGet (clearCloudinaryCredentials w).2.async FALLBACK_API_KEY_KEY =
        kvGet w.async FALLBACK_API_KEY_KEY ∧
      kvGet (clearCloudinaryCredentials w).2.async FALLBACK_API_SECRET_KEY =
        kvGet w.async FALLBACK_API_SECRET_KEY) ∧
    ((isSecureStoreAvailable w).1 = false →
      kvGet (clearCloudinaryCredentials w).2.async FALLBACK_API_KEY_KEY =
        none ∧
      kvGet (clearCloudinaryCredentials w).2.async FALLBACK_API_SECRET_KEY =
        none ∧
      (clearCloudinaryCredentials w).2.secure = w.secure) := by
  have hok : ∀ v : World, (clearCloudinaryCredentials v).1 = Except.ok () := by
    intro v
    rcases hb : clearBody v with ⟨r, v2⟩
    cases r <;> simp [clearCloudinaryCredentials, hb]
  have hwr := removeDisplayCreds_fields w
  have hbeq : (isSecureStoreAvailable (removeDisplayCreds w)).1 =
      (isSecureStoreAvailable w).1 :=
    isSecureStoreAvailable_bool_congr _ _ hwr.2.1 hwr.2.2.2.1 hwr.2.2.1
  have hfa := isSecureStoreAvailable_fields (removeDisplayCreds w)
  have hasync : (isSecureStoreAvailable (removeDisplayCreds w)).2.async =
      kvRemove w.async CLOUDINARY_CREDENTIALS_KEY := hfa.1
  have hsec : (isSecureStoreAvailable (removeDisplayCreds w)).2.secure =
      w.secure := by rw [hfa.2.1]; exact hwr.1
  have hat : (isSecureStoreAvailable (removeDisplayCreds w)).2.asyncThrows =
      false := by rw [hfa.2.2.1]; exact hwr.2.2.2.2.1.trans hw
  have hst : (isSecureStoreAvailable (removeDisplayCreds w)).2.secureThrows =
      false := by rw [hfa.2.2.2]; exact hwr.2.2.2.2.2.trans hs
  cases hb : (isSecureStoreAvailable w).1
  · have hworld : (clearCloudinaryCredentials w).2 =
        { (isSecureStoreAvailable (removeDisplayCreds w)).2 with
          async := kvRemove (kvRemove
            (isSecureStoreAvailable (removeDisplayCreds w)).2.async
            FALLBACK_API_KEY_KEY) FALLBACK_API_SECRET_KEY } := by
      rw [hb] at hbeq
      simp [clearCloudinaryCredentials, clearBody, hw, clearSecretsIn, hbeq,
        hat]
    refine ⟨hok, ?_, ?_, ?_⟩
    · rw [hworld]
      simp only [hasync]
      rw [kvGet_kvRemove_ne _ _ _ (by decide),
        kvGet_kvRemove_ne _ _ _ (by decide), kvGet_kvRemove_self]
    · intro hcontra
      exact Bool.noConfusion hcontra
    · intro _
      refine ⟨?_, ?_, ?_⟩
      · rw [hworld]
        simp only [hasync]
        rw [kvGet_kvRemove_ne _ _ _ (by decide), kvGet_kvRemove_self]
      · rw [hworld]
        simp only [hasync]
        rw [kvGet_kvRemove_self]
      · rw [hworld]
        exact hsec
  · have hworld : (clearCloudinaryCredentials w).2 =
        { (isSecureStoreAvailable (removeDisplayCreds w)).2 with
          secure := kvRemove (kvRemove
            (isSecureStoreAvailable (removeDisplayCreds w)).2.secure
            API_KEY_KEY) API_SECRET_KEY } := by
      rw [hb] at hbeq
      simp [clearCloudinaryCredentials, clearBody, hw, clearSecretsIn, hbeq,
        hst]
    refine ⟨hok, ?_, ?_, ?_⟩
    · rw [hworld]
      simp only [hasync]
      rw [kvGet_kvRemove_self]
    · intro _
      refine ⟨?_, ?_, ?_, ?_⟩
      · rw [hworld]
        simp only [hsec]
        rw [kvGet_kvRemove_ne _ _ _ (by decide), kvGet_kvRemove_self]
      · rw [hworld]
        simp only [hsec]
        rw [kvGet_kvRemove_self]
      · rw [hworld]
        simp only [hasync]
        rw [kvGet_kvRemove_ne _ _ _ (by decide)]
      · rw [hworld]
        simp only [hasync]
        rw [kvGet_kvRemove_ne _ _ _ (by decide)]
    · intro hcontra
      exact Bool.noConfusion hcontra

theorem clear_credentials_scoped_witness :
    kvGet (clearCloudinaryCredentials worldFull).2.async
      CLOUDINARY_CREDENTIALS_KEY = none ∧
    kvGet (clearCloudinaryCredentials worldFull).2.async
      FALLBACK_API_KEY_KEY = none ∧
    kvGet (clearCloudinaryCredentials worldFull).2.async
      FALLBACK_API_SECRET_KEY = none ∧
    (clearCloudinaryCredentials worldFull).2.secure = worldFull.secure ∧
    kvGet (clearCloudinaryCredentials worldBothBackends).2.async
      FALLBACK_API_KEY_KEY = kvGet worldBothBackends.async
      FALLBACK_API_KEY_KEY := by
  have h := clear_credentials_scoped worldFull rfl rfl
  have h2 := h.2.2.2 (by decide)
  have hb := clear_credentials_scoped worldBothBackends rfl rfl
  have hb2 := hb.2.2.1 (by decide)
  exact ⟨h.2.1, h2.1, h2.2.1, h2.2.2, hb2.2.2.1⟩

/-- Empty stores with the availability probe memoized as unavailable. -/
def worldFallbackEmpty : World := ⟨[], [], some false, false, false, false, false⟩

/-- C6 counterexample: with the secure backend unavailable, saving the pair
`("k", "")` succeeds (both fallback keys are written), yet reading it back
yields `absent` rather than the saved pair — the read's truthiness test
`if (storedKey && storedSecret)` rejects the empty string, so the round trip
of the claim fails for empty-string credentials. -/
theorem secret_fallback_roundtrip_counterexample :
    (isSecureStoreAvailable worldFallbackEmpty).1 = false ∧
    (saveCloudinaryApiCredentials worldFallbackEmpty "k" "").1 =
      Except.ok () ∧
    kvGet (saveCloudinaryApiCredentials worldFallbackEmpty "k" "").2.async
      FALLBACK_API_SECRET_KEY = some (StoredValue.str "") ∧
    (getCloudinaryApiCredentials
      (saveCloudinaryApiCredentials worldFallbackEmpty "k" "").2).1 = none ∧
    some (CloudinaryApiCredentials.mk "k" "") ≠
      (none : Option CloudinaryApiCredentials) :=
  ⟨by decide, rfl, by decide, by decide, by decide⟩

/-- C6 (amended): with the secure backend reported unavailable, saving a
non-empty secret pair and reading it back round-trips exactly through the
fallback backend; the secure backend's key namespace is untouched (an
initially empty secure store still yields nothing under the secure-tier
keys), and the fallback key names are distinct from the secure-tier key
names. -/
theorem secret_fallback_roundtrip (w : World) (k s : String)
    (havail : (isSecureStoreAvailable w).1 = false)
    (hw : w.asyncThrows = false) (hk : k ≠ "") (hs : s ≠ "") :
    (saveCloudinaryApiCredentials w k s).1 = Except.ok () ∧
    (getCloudinaryApiCredentials (saveCloudinaryApiCredentials w k s).2).1 =
      some ⟨k, s⟩ ∧
    (saveCloudinaryApiCredentials w k s).2.secure = w.secure ∧
    (w.secure = [] →
      kvGet (saveCloudinaryApiCredentials w k s).2.secure API_KEY_KEY =
        none ∧
      kvGet (saveCloudinaryApiCredentials w k s).2.secure API_SECRET_KEY =
        none) ∧
    FALLBACK_API_KEY_KEY ≠ API_KEY_KEY ∧
    FALLBACK_API_SECRET_KEY ≠ API_SECRET_KEY := by
  have hfa := isSecureStoreAvailable_fields w
  have hat : (isSecureStoreAvailable w).2.asyncThrows = false :=
    hfa.2.2.1.trans hw
  have hw2 : (saveCloudinaryApiCredentials w k s).2 =
      { (isSecureStoreAvailable w).2 with
        async := kvSet (kvSet (isSecureStoreAvailable w).2.async
          FALLBACK_API_KEY_KEY (StoredValue.str k)) FALLBACK_API_SECRET_KEY
          (StoredValue.str s) } := by
    simp [saveCloudinaryApiCredentials, saveApiCredsIn, havail, hat]
  have hok : (saveCloudinaryApiCredentials w k s).1 = Except.ok () := by
    simp [saveCloudinaryApiCredentials, saveApiCredsIn, havail, hat]
  have hmemo : (saveCloudinaryApiCredentials w k s).2.secAvailMemo =
      some false := by
    rw [hw2]
    show (isSecureStoreAvailable w).2.secAvailMemo = some false
    rw [isSecureStoreAvailable_memo w, havail]
  have havail2 : isSecureStoreAvailable (saveCloudinaryApiCredentials w k s).2 =
      (false, (saveCloudinaryApiCredentials w k s).2) := by
    rw [isSecureStoreAvailable, hmemo]
  have hget : (getCloudinaryApiCredentials
      (saveCloudinaryApiCredentials w k s).2).1 = some ⟨k, s⟩ := by
    rw [getCloudinaryApiCredentials, havail2]
    show getApiCredsIn false (saveCloudinaryApiCredentials w k s).2 =
      some ⟨k, s⟩
    rw [getApiCredsIn]
    have hat2 : (saveCloudinaryApiCredentials w k s).2.asyncThrows = false := by
      rw [hw2]; exact hat
    have hrk : kvGet (saveCloudinaryApiCredentials w k s).2.async
        FALLBACK_API_KEY_KEY = some (StoredValue.str k) := by
      rw [hw2]
      show kvGet (kvSet (kvSet _ _ _) _ _) _ = _
      rw [kvGet_kvSet_ne _ _ _ _ (by decide), kvGet_kvSet_self]
    have hrs : kvGet (saveCloudinaryApiCredentials w k s).2.async
        FALLBACK_API_SECRET_KEY = some (StoredValue.str s) := by
      rw [hw2]
      show kvGet (kvSet (kvSet _ _ _) _ _) _ = _
      rw [kvGet_kvSet_self]
    simp [hat2, hrk, hrs, hk, hs]
  have hsecure : (saveCloudinaryApiCredentials w k s).2.secure = w.secure := by
    rw [hw2]
    show (isSecureStoreAvailable w).2.secure = w.secure
    exact hfa.2.1
  refine ⟨hok, hget, hsecure, ?_, by decide, by decide⟩
  intro hempty
  rw [hsecure, hempty]
  exact ⟨rfl, rfl⟩

theorem secret_fallback_roundtrip_witness :
    (isSecureStoreAvailable worldFallbackEmpty).1 = false ∧
    (getCloudinaryApiCredentials
      (saveCloudinaryApiCredentials worldFallbackEmpty "key1" "secret1").2).1 =
      some ⟨"key1", "secret1"⟩ ∧
    kvGet (saveCloudinaryApiCredentials worldFallbackEmpty "key1"
      "secret1").2.secure API_KEY_KEY = none := by
  have h := secret_fallback_roundtrip worldFallbackEmpty "key1" "secret1"
    (by decide) rfl (by decide) (by decide)
  exact ⟨by decide, h.2.1, (h.2.2.2.1 rfl).1⟩

/-- C7: whenever `getCloudinaryApiCredentials` returns a pair, both the key
and the secret were present (non-empty, after the truthiness test) in the
backend chosen by the availability probe, and its read operations did not
fail; hence a lone key or lone secret is never returned, and a failed read
yields `absent`. -/
theorem secret_pair_atomic (w : World) (c : CloudinaryApiCredentials)
    (h : (getCloudinaryApiCredentials w).1 = some c) :
    c.apiKey ≠ "" ∧ c.apiSecret ≠ "" ∧
    (((isSecureStoreAvailable w).1 = true ∧ w.secureThrows = false ∧
      kvGet w.secure API_KEY_KEY = some c.apiKey ∧
      kvGet w.secure API_SECRET_KEY = some c.apiSecret) ∨
     ((isSecureStoreAvailable w).1 = false ∧ w.asyncThrows = false ∧
      kvGet w.async FALLBACK_API_KEY_KEY =
        some (StoredValue.str c.apiKey) ∧
      kvGet w.async FALLBACK_API_SECRET_KEY =
        some (StoredValue.str c.apiSecret))) := by
  have hfa := isSecureStoreAvailable_fields w
  rw [getCloudinaryApiCredentials] at h
  simp only [] at h
  cases hb : (isSecureStoreAvailable w).1
  · rw [hb, getApiCredsIn] at h
    cases hat : w.asyncThrows
    · rcases hk : kvGet w.async FALLBACK_API_KEY_KEY with _ | v1
      · simp [hfa.2.2.1, hat, hfa.1, hk] at h
      · rcases hs2 : kvGet w.async FALLBACK_API_SECRET_KEY with _ | v2
        · cases v1 <;> simp [hfa.2.2.1, hat, hfa.1, hk, hs2] at h
        · cases v1 with
          | creds c1 =>
            cases v2 <;> simp [hfa.2.2.1, hat, hfa.1, hk, hs2] at h
          | cache e1 =>
            cases v2 <;> simp [hfa.2.2.1, hat, hfa.1, hk, hs2] at h
          | str k1 =>
            cases v2 with
            | creds c2 => simp [hfa.2.2.1, hat, hfa.1, hk, hs2] at h
            | cache e2 => simp [hfa.2.2.1, hat, hfa.1, hk, hs2] at h
            | str s1 =>
              rw [hfa.2.2.1] at h
              rw [hfa.1, hk, hs2, hat] at h
              simp only [Bool.false_eq_true, if_false] at h
              by_cases hcond : k1 ≠ "" ∧ s1 ≠ ""
              · rw [if_pos hcond] at h
                obtain hce := Option.some.inj h
                subst hce
                exact ⟨hcond.1, hcond.2, Or.inr ⟨rfl, rfl, rfl, rfl⟩⟩
              · rw [if_neg hcond] at h
                exact Option.noConfusion h
    · simp [hfa.2.2.1, hat] at h
  · rw [hb, getApiCredsIn] at h
    cases hst : w.secureThrows
    · rcases hk : kvGet w.secure API_KEY_KEY with _ | k1
      · simp [hfa.2.2.2, hst, hfa.2.1, hk] at h
      · rcases hs2 : kvGet w.secure API_SECRET_KEY with _ | s1
        · simp [hfa.2.2.2, hst, hfa.2.1, hk, hs2] at h
        · rw [hfa.2.2.2] at h
          rw [hfa.2.1, hk, hs2, hst] at h
          simp only [Bool.false_eq_true, if_false] at h
          by_cases hcond : k1 ≠ "" ∧ s1 ≠ ""
          · rw [if_pos hcond] at h
            obtain hce := Option.some.inj h
            subst hce
            exact ⟨hcond.1, hcond.2, Or.inl ⟨rfl, rfl, rfl, rfl⟩⟩
          · rw [if_neg hcond] at h
            exact Option.noConfusion h
    · simp [hfa.2.2.2, hst] at h

/-- Secret credentials stored in the secure backend, probe memoized as
available. -/
def worldSecure : World :=
  ⟨[], [(API_KEY_KEY, "key1"), (API_SECRET_KEY, "secret1")], some true,
   true, false, false, false⟩

theorem secret_pair_atomic_witness :
    ("key1" : String) ≠ "" ∧ ("secret1" : String) ≠ "" ∧
    (((isSecureStoreAvailable worldSecure).1 = true ∧
      worldSecure.secureThrows = false ∧
      kvGet worldSecure.secure API_KEY_KEY = some "key1" ∧
      kvGet worldSecure.secure API_SECRET_KEY = some "secret1") ∨
     ((isSecureStoreAvailable worldSecure).1 = false ∧
      worldSecure.asyncThrows = false ∧
      kvGet worldSecure.async FALLBACK_API_KEY_KEY =
        some (StoredValue.str "key1") ∧
      kvGet worldSecure.async FALLBACK_API_SECRET_KEY =
        some (StoredValue.str "secret1"))) :=
  secret_pair_atomic worldSecure ⟨"key1", "secret1"⟩ (by decide)

/-- C8: if the binary upload succeeds and the metadata-update call raises,
`handleUpload` still reports success (success toast, no error toast): the
metadata failure is only logged and does not undo the upload outcome. -/
theorem upload_metadata_independence (w : World)
    (creds : CloudinaryCredentials) (d t : String) (r : UploadResponse)
    (e : String) (hc : getCloudinaryCredentials w = some creds) :
    (handleUpload true w d t (Except.ok r) (Except.error e)).successToast =
      true ∧
    (handleUpload true w d t (Except.ok r) (Except.error e)).errorToast =
      none := by
  by_cases hcond : (d ≠ "" ∨ (parseTags t).length > 0) ∧ r.public_id ≠ ""
  · rcases hapi : (getCloudinaryApiCredentials w).1 with _ | a <;>
      simp [handleUpload, hc, hcond, hapi]
  · simp [handleUpload, hc, hcond]

theorem upload_metadata_independence_witness :
    (handleUpload true worldFull "desc" "tag1,tag2"
      (Except.ok ⟨"pid", "https://x", 10, 10, "jpg", 100⟩)
      (Except.error "metadata update failed")).successToast = true ∧
    (handleUpload true worldFull "desc" "tag1,tag2"
      (Except.ok ⟨"pid", "https://x", 10, 10, "jpg", 100⟩)
      (Except.error "metadata update failed")).errorToast = none :=
  upload_metadata_independence worldFull displayCreds "desc" "tag1,tag2"
    ⟨"pid", "https://x", 10, 10, "jpg", 100⟩ "metadata update failed"
    (by decide)

end CloudinaryManager
